import Mathlib

/-!
Verification of the authentication and slug-generation core of the
jkusabackend repository against its natural-language specification.

The Python sources are shallowly embedded: module-level configuration
loading becomes an explicit function of an environment, the `jose` JWT
codec is modelled as a record carrying the claim set together with the
signing key and algorithm, the bcrypt primitive is modelled with an
explicit salt argument and an abstract digest function, database queries
become searches over explicit lists of records, and the logger becomes an
explicit list of emitted messages.
-/

namespace Jkusa

/-! ## Configuration (src/app/auth/auth.py, module level) -/

/-- Decimal integer parsing as performed by the Python builtin `int` on the
string values occurring here (nonnegative decimal literals). -/
def parsePyInt (s : String) : Option Nat :=
  if s.data ≠ [] ∧ s.data.all (fun c => c.isDigit) then
    some (s.data.foldl (fun a c => a * 10 + (c.toNat - 48)) 0)
  else
    none

structure AuthConfig where
  secretKey : Option String
  algorithm : Option String
  accessTokenExpireMinutes : Nat
deriving DecidableEq

/-- Module-level configuration loading in src/app/auth/auth.py lines 22-25:
`SECRET_KEY = os.getenv("JWT_SECRET_KEY")`, `ALGORITHM = os.getenv("ALGORITHM")`,
`ACCESS_TOKEN_EXPIRE_MINUTES = int(os.getenv("ACCESS_TOKEN_EXPIRE_MINUTES", "60"))`.
`os.getenv` returns `None` for an absent variable, so the two key lookups
never fail; the only module-load failure is the `int` conversion. -/
def loadAuthConfig (env : String → Option String) : Except String AuthConfig :=
  match parsePyInt ((env "ACCESS_TOKEN_EXPIRE_MINUTES").getD "60") with
  | none => .error "ValueError: invalid literal for int"
  | some m => .ok ⟨env "JWT_SECRET_KEY", env "ALGORITHM", m⟩

/-! ## Token codec (jose jwt, as used by src/app/auth/auth.py) -/

/-- The claim set carried by a token: `sub`, `type`, `exp`.
`exp` is a POSIX timestamp in seconds. -/
structure Claims where
  sub : Option String
  type : Option String
  exp : Nat
deriving DecidableEq

inductive JoseError where
  | invalid
  | expired
deriving DecidableEq

/-- A signed token, modelled as a claim set together with the key and
algorithm it was signed with; signature verification in `jwt_decode`
compares them against the verification key and accepted algorithms. -/
structure Token where
  claims : Claims
  key : String
  alg : String
deriving DecidableEq

/-- The payload dictionary passed to `create_access_token` by the login
flows: a `sub` entry and a `type` entry. -/
structure TokenData where
  sub : Option String
  type : Option String
deriving DecidableEq

/-- jose `jwt.encode(claims, key, algorithm)`: fails (raises `JWSError`)
when the key or the algorithm is `None`, otherwise signs. -/
def jwt_encode (c : Claims) (key alg : Option String) : Except String Token :=
  match key, alg with
  | some k, some a => .ok ⟨c, k, a⟩
  | _, _ => .error "JWSError"

/-- src/app/auth/auth.py lines 70-74 `create_access_token`: copies the data
dictionary, adds `exp = now + ACCESS_TOKEN_EXPIRE_MINUTES` minutes and signs
with the module-level secret and algorithm. -/
def create_access_token (cfg : AuthConfig) (now : Nat) (data : TokenData) :
    Except String Token :=
  jwt_encode ⟨data.sub, data.type, now + 60 * cfg.accessTokenExpireMinutes⟩
    cfg.secretKey cfg.algorithm

/-- jose `jwt.decode(token, SECRET_KEY, algorithms=[ALGORITHM])` as invoked
by the resolvers: fails when the module secret or algorithm is `None`,
fails on a signature or algorithm mismatch, fails with `expired` when the
`exp` claim is in the past, and otherwise returns the claim set. -/
def jwt_decode_cfg (cfg : AuthConfig) (tok : Token) (now : Nat) :
    Except JoseError Claims :=
  match cfg.secretKey, cfg.algorithm with
  | some k, some a =>
    if tok.key = k ∧ tok.alg = a then
      if tok.claims.exp < now then .error .expired else .ok tok.claims
    else .error .invalid
  | _, _ => .error .invalid

/-- Issuing a token and then decoding it with the same configuration
(same secret and algorithm), flattening both failure modes to `none`. -/
def issue_and_decode (cfg : AuthConfig) (now : Nat) (data : TokenData)
    (now' : Nat) : Option Claims :=
  match create_access_token cfg now data with
  | .error _ => none
  | .ok tok =>
    match jwt_decode_cfg cfg tok now' with
    | .error _ => none
    | .ok c => some c

/-- C1: for every subject `s`, principal type `t` in `{user, admin}` and
time `now`, decoding `create_access_token {sub := s, type := t}` with the
same secret and algorithm at any time before expiration succeeds and
yields exactly the subject `s` and the principal type `t`. -/
theorem token_issue_verify_roundtrip (cfg : AuthConfig) (k a s t : String)
    (now now' : Nat)
    (hk : cfg.secretKey = some k) (ha : cfg.algorithm = some a)
    (ht : t = "user" ∨ t = "admin")
    (hexp : now' < now + 60 * cfg.accessTokenExpireMinutes) :
    issue_and_decode cfg now ⟨some s, some t⟩ now' =
      some ⟨some s, some t, now + 60 * cfg.accessTokenExpireMinutes⟩ := by
  have hnot : ¬ (now + 60 * cfg.accessTokenExpireMinutes < now') := by omega
  simp [issue_and_decode, create_access_token, jwt_encode, jwt_decode_cfg,
    hk, ha, hnot]

/-- Witness for C1 at a concrete configuration, subject and times. -/
theorem token_issue_verify_roundtrip_witness :
    issue_and_decode ⟨some "secret", some "HS256", 60⟩ 0 ⟨some "alice", some "user"⟩ 5 =
      some ⟨some "alice", some "user", 3600⟩ :=
  token_issue_verify_roundtrip ⟨some "secret", some "HS256", 60⟩
    "secret" "HS256" "alice" "user" 0 5 rfl rfl (Or.inl rfl) (by decide)

/-! ## Principal records

Modelled from the spec: the ORM model classes (app/models/user.py,
app/models/admin.py, app/models/admin_role.py) and the Pydantic schemas
(app/schemas/user.py) are not under src/; their shapes are taken from
section 3 of the spec (identifier, username, email, active flag, admin
first and last name, nullable role reference, role name with permission
strings) together with the attribute accesses made by src/app/auth/auth.py. -/

/-- Modelled from the spec: a Role owns a name and a set of permission
strings (app/models/admin_role.py is not under src/). -/
structure AdminRole where
  name : String
  permissions : List String
deriving DecidableEq

/-- Modelled from the spec: an Admin record (app/models/admin.py is not
under src/), with the nullable role reference eagerly loaded into `role`. -/
structure Admin where
  id : Nat
  username : String
  email : String
  first_name : String
  last_name : String
  is_active : Bool
  role_id : Option Nat
  role : Option AdminRole
deriving DecidableEq

/-- Modelled from the spec: a User record (app/models/user.py is not under
src/). -/
structure User where
  id : Nat
  username : String
  email : String
  first_name : Option String
  last_name : Option String
  phone_number : Option String
  is_active : Bool
deriving DecidableEq

/-- Modelled from the spec: the sanitized, password-hash-free user view
built by `get_current_user` (app/schemas/user.py is not under src/). -/
structure UserSchema where
  id : Nat
  username : String
  email : String
  first_name : Option String
  last_name : Option String
  phone_number : Option String
  is_active : Bool
deriving DecidableEq

/-- A FastAPI `HTTPException` as raised by the resolvers: status code,
detail message and response headers. -/
structure HTTPError where
  status_code : Nat
  detail : String
  headers : List (String × String)
deriving DecidableEq

/-- A record emitted through the module logger. -/
inductive LogMsg where
  | debug (msg : String)
  | warning (msg : String)
  | error (msg : String)
deriving DecidableEq

/-- The message text jose attaches to its exceptions, as interpolated into
the `JWT decode error` log line. -/
def joseErrorMsg : JoseError → String
  | .invalid => "Signature verification failed."
  | .expired => "Signature has expired."

/-- Python string interpolation of an optional integer (used for the
`role_id` attribute in a log line). -/
def optNatStr : Option Nat → String
  | none => "None"
  | some n => Nat.repr n

/-! ## Authorization resolvers (src/app/auth/auth.py lines 98-170) -/

/-- src/app/auth/auth.py lines 78-79 `get_user`: first user whose username
matches. -/
def get_user (db : List User) (username : String) : Option User :=
  db.find? (fun u => u.username == username)

/-- src/app/auth/auth.py lines 98-126 `get_current_user`: decode the token,
require a `sub` claim and `type == "user"`, look the user up by username,
and build the sanitized schema view. Every failure is the 401
`credentials_exception`. -/
def get_current_user (cfg : AuthConfig) (now : Nat) (tok : Token)
    (db : List User) : Except HTTPError UserSchema :=
  let cexc : HTTPError :=
    ⟨401, "Could not validate user credentials", [("WWW-Authenticate", "Bearer")]⟩
  match jwt_decode_cfg cfg tok now with
  | .error _ => .error cexc
  | .ok payload =>
    match payload.sub with
    | none => .error cexc
    | some username =>
      if payload.type ≠ some "user" then .error cexc
      else
        match get_user db username with
        | none => .error cexc
        | some u =>
          .ok ⟨u.id, u.username, u.email, u.first_name, u.last_name,
            u.phone_number, u.is_active⟩

/-- src/app/auth/auth.py lines 129-170 `get_current_admin`: decode the
token, require a `sub` claim and `type == "admin"`, look the admin up by
username with the role eagerly loaded, reject a missing admin with 401,
reject an inactive admin with 403, log the role state, and return the
admin record. The first component collects the logger output. -/
def auth_get_current_admin (cfg : AuthConfig) (now : Nat) (tok : Token)
    (db : List Admin) : List LogMsg × Except HTTPError Admin :=
  let cexc : HTTPError :=
    ⟨401, "Could not validate admin credentials", [("WWW-Authenticate", "Bearer")]⟩
  match jwt_decode_cfg cfg tok now with
  | .error e => ([.error ("JWT decode error: " ++ joseErrorMsg e)], .error cexc)
  | .ok payload =>
    match payload.sub with
    | none => ([], .error cexc)
    | some username =>
      if payload.type ≠ some "admin" then ([], .error cexc)
      else
        match db.find? (fun r => r.username == username) with
        | none =>
          ([.warning ("Admin not found for username: " ++ username)], .error cexc)
        | some admin =>
          if admin.is_active = false then
            ([], .error ⟨403, "Admin account is inactive", []⟩)
          else
            match admin.role with
            | some r =>
              ([.debug ("Admin " ++ admin.username ++ " loaded with role: " ++
                r.name ++ ", permissions: " ++ String.intercalate ", " r.permissions)],
                .ok admin)
            | none =>
              ([.warning ("Admin " ++ admin.username ++
                " has no role assigned (role_id: " ++ optNatStr admin.role_id ++ ")")],
                .ok admin)

/-- The local `get_current_admin` defined identically in each of
src/app/routers/admin_gallery.py lines 45-69, admin_news.py lines 46-70,
admin_leadership.py lines 47-71 and admin_subscriber.py lines 43-67:
decode the token, require a `sub` claim and `type == "admin"`, look the
admin up by username and return it. There is no check of the active flag
and no 403 path. -/
def router_get_current_admin (cfg : AuthConfig) (now : Nat) (tok : Token)
    (db : List Admin) : List LogMsg × Except HTTPError Admin :=
  let cexc : HTTPError :=
    ⟨401, "Could not validate admin credentials", [("WWW-Authenticate", "Bearer")]⟩
  match jwt_decode_cfg cfg tok now with
  | .error e => ([.error ("JWT decode error: " ++ joseErrorMsg e)], .error cexc)
  | .ok payload =>
    match payload.sub with
    | none => ([], .error cexc)
    | some username =>
      if payload.type ≠ some "admin" then ([], .error cexc)
      else
        match db.find? (fun r => r.username == username) with
        | none =>
          ([.warning ("Admin not found: " ++ username)], .error cexc)
        | some admin =>
          ([.debug ("Authenticated admin: " ++ admin.username)], .ok admin)

/-- The four router modules each define a textually identical local
resolver; they are embedded once as `router_get_current_admin` and once
per module here. -/
def gallery_get_current_admin := router_get_current_admin

def news_get_current_admin := router_get_current_admin

def leadership_get_current_admin := router_get_current_admin

def subscriber_get_current_admin := router_get_current_admin

/-! ## Resolver theorems -/

lemma jwt_decode_cfg_ok_claims {cfg : AuthConfig} {tok : Token} {now : Nat}
    {c : Claims} (h : jwt_decode_cfg cfg tok now = .ok c) : c = tok.claims := by
  rcases cfg with ⟨sk, al, m⟩
  cases sk with
  | none => simp [jwt_decode_cfg] at h
  | some k =>
    cases al with
    | none => simp [jwt_decode_cfg] at h
    | some a =>
      simp only [jwt_decode_cfg] at h
      split at h
      · split at h
        · cases h
        · cases h
          rfl
      · cases h

/-- C2: an admin record whose active flag is false, presented through a
structurally valid, unexpired admin token naming it as subject, makes
`get_current_admin` in src/app/auth/auth.py fail with 403 Forbidden (not
401 Unauthenticated); the lookup has succeeded (hypothesis `hfind`) before
the failure. -/
theorem inactive_admin_forbidden (cfg : AuthConfig) (k a u : String)
    (exp now : Nat) (db : List Admin) (adm : Admin)
    (hk : cfg.secretKey = some k) (ha : cfg.algorithm = some a)
    (hexp : now ≤ exp)
    (hfind : db.find? (fun r => r.username == u) = some adm)
    (hact : adm.is_active = false) :
    (auth_get_current_admin cfg now ⟨⟨some u, some "admin", exp⟩, k, a⟩ db).2 =
      .error ⟨403, "Admin account is inactive", []⟩ := by
  simp [auth_get_current_admin, jwt_decode_cfg, hk, ha, Nat.not_lt.mpr hexp,
    hfind, hact]

/-- Witness for C2: the inactive admin bob with a valid unexpired token. -/
theorem inactive_admin_forbidden_witness :
    (auth_get_current_admin ⟨some "k", some "HS256", 60⟩ 50
      ⟨⟨some "bob", some "admin", 100⟩, "k", "HS256"⟩
      [⟨1, "bob", "bob@example.com", "Bob", "B", false, none, none⟩]).2 =
      .error ⟨403, "Admin account is inactive", []⟩ :=
  inactive_admin_forbidden ⟨some "k", some "HS256", 60⟩ "k" "HS256" "bob"
    100 50 _ _ rfl rfl (by decide) rfl rfl

lemma router_admin_found_ok (cfg : AuthConfig) (k a u : String)
    (exp now : Nat) (db : List Admin) (adm : Admin)
    (hk : cfg.secretKey = some k) (ha : cfg.algorithm = some a)
    (hexp : now ≤ exp)
    (hfind : db.find? (fun r => r.username == u) = some adm) :
    (router_get_current_admin cfg now ⟨⟨some u, some "admin", exp⟩, k, a⟩ db).2 =
      .ok adm := by
  simp [router_get_current_admin, jwt_decode_cfg, hk, ha, Nat.not_lt.mpr hexp,
    hfind]

/-- C3: the local `get_current_admin` of the gallery, news, leadership and
subscriber router modules authenticates any existing admin named by a
valid unexpired admin token without consulting the active flag: even with
`is_active = false` each module resolver returns the admin, raising no
403. -/
theorem router_admin_ignores_active_flag (cfg : AuthConfig) (k a u : String)
    (exp now : Nat) (db : List Admin) (adm : Admin)
    (hk : cfg.secretKey = some k) (ha : cfg.algorithm = some a)
    (hexp : now ≤ exp)
    (hfind : db.find? (fun r => r.username == u) = some adm)
    (hact : adm.is_active = false) :
    (gallery_get_current_admin cfg now ⟨⟨some u, some "admin", exp⟩, k, a⟩ db).2 =
        .ok adm ∧
      (news_get_current_admin cfg now ⟨⟨some u, some "admin", exp⟩, k, a⟩ db).2 =
        .ok adm ∧
      (leadership_get_current_admin cfg now ⟨⟨some u, some "admin", exp⟩, k, a⟩ db).2 =
        .ok adm ∧
      (subscriber_get_current_admin cfg now ⟨⟨some u, some "admin", exp⟩, k, a⟩ db).2 =
        .ok adm :=
  ⟨router_admin_found_ok cfg k a u exp now db adm hk ha hexp hfind,
   router_admin_found_ok cfg k a u exp now db adm hk ha hexp hfind,
   router_admin_found_ok cfg k a u exp now db adm hk ha hexp hfind,
   router_admin_found_ok cfg k a u exp now db adm hk ha hexp hfind⟩

/-- Witness for C3: the inactive admin bob is authenticated by all four
router resolvers. -/
theorem router_admin_ignores_active_flag_witness :
    (gallery_get_current_admin ⟨some "k", some "HS256", 60⟩ 50
        ⟨⟨some "bob", some "admin", 100⟩, "k", "HS256"⟩
        [⟨1, "bob", "bob@example.com", "Bob", "B", false, none, none⟩]).2 =
        .ok ⟨1, "bob", "bob@example.com", "Bob", "B", false, none, none⟩ ∧
      (news_get_current_admin ⟨some "k", some "HS256", 60⟩ 50
        ⟨⟨some "bob", some "admin", 100⟩, "k", "HS256"⟩
        [⟨1, "bob", "bob@example.com", "Bob", "B", false, none, none⟩]).2 =
        .ok ⟨1, "bob", "bob@example.com", "Bob", "B", false, none, none⟩ ∧
      (leadership_get_current_admin ⟨some "k", some "HS256", 60⟩ 50
        ⟨⟨some "bob", some "admin", 100⟩, "k", "HS256"⟩
        [⟨1, "bob", "bob@example.com", "Bob", "B", false, none, none⟩]).2 =
        .ok ⟨1, "bob", "bob@example.com", "Bob", "B", false, none, none⟩ ∧
      (subscriber_get_current_admin ⟨some "k", some "HS256", 60⟩ 50
        ⟨⟨some "bob", some "admin", 100⟩, "k", "HS256"⟩
        [⟨1, "bob", "bob@example.com", "Bob", "B", false, none, none⟩]).2 =
        .ok ⟨1, "bob", "bob@example.com", "Bob", "B", false, none, none⟩ :=
  router_admin_ignores_active_flag ⟨some "k", some "HS256", 60⟩ "k" "HS256"
    "bob" 100 50 _ _ rfl rfl (by decide) rfl rfl

/-- C4: a token whose `type` claim is not `some "user"` (admin, absent, or
anything else) makes `get_current_user` fail with 401 for every state of
the user collection: the type check precedes any lookup, so the failure
happens even when the subject names an existing user. -/
theorem wrong_type_token_rejected_before_lookup (cfg : AuthConfig)
    (now : Nat) (tok : Token) (db : List User)
    (hty : tok.claims.type ≠ some "user") :
    get_current_user cfg now tok db =
      .error ⟨401, "Could not validate user credentials",
        [("WWW-Authenticate", "Bearer")]⟩ := by
  unfold get_current_user
  cases hdec : jwt_decode_cfg cfg tok now with
  | error e => rfl
  | ok payload =>
    obtain rfl := jwt_decode_cfg_ok_claims hdec
    cases hsub : tok.claims.sub with
    | none => simp [hsub]
    | some username => simp [hsub, hty]

/-- Witness for C4: an admin-type token whose subject alice exists in the
user collection is still rejected with 401. -/
theorem wrong_type_token_rejected_before_lookup_witness :
    get_current_user ⟨some "k", some "HS256", 60⟩ 50
      ⟨⟨some "alice", some "admin", 100⟩, "k", "HS256"⟩
      [⟨1, "alice", "alice@example.com", none, none, none, true⟩] =
      .error ⟨401, "Could not validate user credentials",
        [("WWW-Authenticate", "Bearer")]⟩ :=
  wrong_type_token_rejected_before_lookup ⟨some "k", some "HS256", 60⟩ 50
    ⟨⟨some "alice", some "admin", 100⟩, "k", "HS256"⟩
    [⟨1, "alice", "alice@example.com", none, none, none, true⟩] (by decide)

/-- C8: an active admin whose role reference is null, presented through a
valid unexpired admin token, is resolved successfully by
`get_current_admin` in src/app/auth/auth.py: the record (with `role = none`,
hence no permissions) is returned and a warning is logged, rather than the
request failing. -/
theorem null_role_admin_succeeds (cfg : AuthConfig) (k a u : String)
    (exp now : Nat) (db : List Admin) (adm : Admin)
    (hk : cfg.secretKey = some k) (ha : cfg.algorithm = some a)
    (hexp : now ≤ exp)
    (hfind : db.find? (fun r => r.username == u) = some adm)
    (hact : adm.is_active = true) (hrole : adm.role = none) :
    auth_get_current_admin cfg now ⟨⟨some u, some "admin", exp⟩, k, a⟩ db =
      ([.warning ("Admin " ++ adm.username ++ " has no role assigned (role_id: " ++
        optNatStr adm.role_id ++ ")")], .ok adm) := by
  simp [auth_get_current_admin, jwt_decode_cfg, hk, ha, Nat.not_lt.mpr hexp,
    hfind, hact, hrole]

/-- Witness for C8: the active, role-less admin carol resolves successfully
with a logged warning. -/
theorem null_role_admin_succeeds_witness :
    auth_get_current_admin ⟨some "k", some "HS256", 60⟩ 50
      ⟨⟨some "carol", some "admin", 100⟩, "k", "HS256"⟩
      [⟨2, "carol", "carol@example.com", "Carol", "C", true, none, none⟩] =
      ([.warning "Admin carol has no role assigned (role_id: None)"],
        .ok ⟨2, "carol", "carol@example.com", "Carol", "C", true, none, none⟩) := by
  have h := null_role_admin_succeeds ⟨some "k", some "HS256", 60⟩ "k" "HS256"
    "carol" 100 50
    [⟨2, "carol", "carol@example.com", "Carol", "C", true, none, none⟩]
    ⟨2, "carol", "carol@example.com", "Carol", "C", true, none, none⟩
    rfl rfl (by decide) rfl rfl rfl
  simpa [optNatStr] using h

/-! ## Password hasher (src/app/auth/auth.py lines 32-66)

The bcrypt primitive is external to the repository. It is modelled with
its key derivation abstracted as a parameter `d` (cost, salt and at most
72 password bytes to digest bytes), randomness passed explicitly (the
salt produced by `bcrypt.gensalt` is an argument), and the self-describing
modular-crypt hash string modelled as a length-prefixed byte encoding of
cost, salt and digest. Bytes are naturals; a Python `str` password enters
through its UTF-8 byte encoding. -/

/-- The UTF-8 byte encoding of a string, as produced by `encode` in Python. -/
def utf8Bytes (s : String) : List Nat :=
  s.toUTF8.toList.map (fun b => b.toNat)

/-- A parsed bcrypt hash: cost factor, salt bytes and digest bytes. -/
structure BcryptHash where
  cost : Nat
  salt : List Nat
  digest : List Nat
deriving DecidableEq

/-- Serialization of a bcrypt hash into the stored byte string: the marker
byte 36 (the dollar sign of the modular-crypt format), the cost, another
marker, the salt length, then salt and digest. -/
def bcrypt_encode (h : BcryptHash) : List Nat :=
  36 :: h.cost :: 36 :: h.salt.length :: (h.salt ++ h.digest)

/-- Parsing of a stored byte string into a bcrypt hash; returns `none` on
any byte string that is not well formed. -/
def bcrypt_decode : List Nat → Option BcryptHash
  | 36 :: cost :: 36 :: n :: rest =>
    if n ≤ rest.length then some ⟨cost, rest.take n, rest.drop n⟩ else none
  | _ => none

/-- `bcrypt.hashpw`: derives the digest from at most the first 72 password
bytes (the internal input limit of the primitive) with the given cost and
salt. `d` is the abstract key derivation. -/
def bcrypt_hashpw (d : Nat → List Nat → List Nat → List Nat)
    (pw : List Nat) (cost : Nat) (salt : List Nat) : BcryptHash :=
  ⟨cost, salt, d cost salt (pw.take 72)⟩

/-- `bcrypt.checkpw`: parses the stored hash (raising, modelled as the
error case, when it is malformed), re-derives the digest from the
candidate password with the stored cost and salt, and compares. -/
def bcrypt_checkpw (d : Nat → List Nat → List Nat → List Nat)
    (pw : List Nat) (stored : List Nat) : Except String Bool :=
  match bcrypt_decode stored with
  | none => .error "Invalid salt"
  | some h => .ok (d h.cost h.salt (pw.take 72) == h.digest)

/-- src/app/auth/auth.py lines 41-43 and 57-59: truncate the encoded
password to its first 72 bytes when it is longer. -/
def truncate72 (bs : List Nat) : List Nat :=
  if bs.length > 72 then bs.take 72 else bs

/-- The byte-level core of src/app/auth/auth.py lines 51-66
`get_password_hash`: truncate the encoded password, then hash with
`bcrypt.hashpw(password_bytes, bcrypt.gensalt(rounds=12))`; the generated
salt is the explicit `salt` argument. -/
def get_password_hash_bytes (d : Nat → List Nat → List Nat → List Nat)
    (salt : List Nat) (pwBytes : List Nat) : List Nat :=
  bcrypt_encode (bcrypt_hashpw d (truncate72 pwBytes) 12 salt)

/-- src/app/auth/auth.py lines 51-66 `get_password_hash` on a string
password: UTF-8 encode, then the byte-level core. -/
def get_password_hash (d : Nat → List Nat → List Nat → List Nat)
    (salt : List Nat) (password : String) : List Nat :=
  get_password_hash_bytes d salt (utf8Bytes password)

/-- src/app/auth/auth.py lines 32-48 `verify_password`: UTF-8 encode the
plaintext, truncate to 72 bytes, call `bcrypt.checkpw` inside a
try/except that converts every raised error into `False`. Total by
construction: it always returns a boolean. -/
def verify_password (d : Nat → List Nat → List Nat → List Nat)
    (plain : String) (hashed : List Nat) : Bool :=
  match bcrypt_checkpw d (truncate72 (utf8Bytes plain)) hashed with
  | .ok b => b
  | .error _ => false

/-- A sample key derivation used to instantiate witnesses. -/
def sampleDigest : Nat → List Nat → List Nat → List Nat :=
  fun _ _ pw => pw

lemma bcrypt_decode_encode (h : BcryptHash) :
    bcrypt_decode (bcrypt_encode h) = some h := by
  rcases h with ⟨cost, salt, digest⟩
  simp [bcrypt_encode, bcrypt_decode, List.take_left, List.drop_left,
    Nat.le_add_right, List.length_append]

/-- C5: for every password (of any byte length, longer than 72 UTF-8 bytes
included), every key derivation and every generated salt, verifying a
password against its own hash returns true. -/
theorem verify_password_of_hash (d : Nat → List Nat → List Nat → List Nat)
    (salt : List Nat) (p : String) :
    verify_password d p (get_password_hash d salt p) = true := by
  simp [verify_password, get_password_hash, get_password_hash_bytes,
    bcrypt_checkpw, bcrypt_decode_encode, bcrypt_hashpw, List.take_take]

/-- C6: hashing a password whose byte encoding exceeds 72 bytes produces
the same hash as hashing its first 72 bytes, for the same generated salt
(randomness is passed explicitly in this embedding). -/
theorem hash_truncation_equivalence (d : Nat → List Nat → List Nat → List Nat)
    (salt : List Nat) (b : List Nat) (hb : 72 < b.length) :
    get_password_hash_bytes d salt b = get_password_hash_bytes d salt (b.take 72) := by
  have h1 : truncate72 b = b.take 72 := by
    simp [truncate72, hb]
  have h2 : truncate72 (b.take 72) = b.take 72 := by
    simp [truncate72, List.length_take]
  simp [get_password_hash_bytes, h1, h2]

/-- Witness for C6 at a concrete 73-byte password. -/
theorem hash_truncation_equivalence_witness :
    72 < (List.replicate 73 0).length ∧
      get_password_hash_bytes sampleDigest [] (List.replicate 73 0) =
        get_password_hash_bytes sampleDigest [] ((List.replicate 73 0).take 72) :=
  ⟨by decide,
   hash_truncation_equivalence sampleDigest [] (List.replicate 73 0) (by decide)⟩

/-- C7: on any stored byte string that is not a well-formed bcrypt hash,
`verify_password` returns false for every password; the exception raised
by `bcrypt.checkpw` is caught and converted, so the function is total and
always yields a boolean. -/
theorem verify_password_malformed_false (d : Nat → List Nat → List Nat → List Nat)
    (p : String) (h : List Nat) (hmal : bcrypt_decode h = none) :
    verify_password d p h = false := by
  simp [verify_password, bcrypt_checkpw, hmal]

/-- Witness for C7: the empty byte string is not a well-formed hash and is
rejected. -/
theorem verify_password_malformed_false_witness :
    bcrypt_decode [] = none ∧ verify_password sampleDigest "a" [] = false :=
  ⟨rfl, verify_password_malformed_false sampleDigest "a" [] rfl⟩

/-! ## Startup behaviour with a missing secret (C9) -/

/-- C9 counterexample: with an environment that defines no variables at
all (in particular no `JWT_SECRET_KEY`), module-level configuration
loading succeeds with a `None` secret instead of failing: the process
starts. The claim that the process fails at startup is false on the code,
which stores `os.getenv("JWT_SECRET_KEY")` without any check. -/
theorem startup_without_secret_counterexample :
    (fun _ : String => (none : Option String)) "JWT_SECRET_KEY" = none ∧
      loadAuthConfig (fun _ => none) = .ok ⟨none, none, 60⟩ := by
  exact ⟨rfl, by simp [loadAuthConfig, parsePyInt]⟩

/-- C9 amended: when `JWT_SECRET_KEY` (and `ALGORITHM`) are absent, the
module loads successfully with a `None` secret — the process starts — and
the failure only surfaces on the first token operation: every token
issuance and every token verification under that configuration raises. -/
theorem startup_without_secret_amended :
    loadAuthConfig (fun _ => none) = .ok ⟨none, none, 60⟩ ∧
      (∀ now data, create_access_token ⟨none, none, 60⟩ now data =
        .error "JWSError") ∧
      (∀ tok now, jwt_decode_cfg ⟨none, none, 60⟩ tok now =
        .error .invalid) := by
  refine ⟨by simp [loadAuthConfig, parsePyInt], ?_, ?_⟩
  · intro now data
    rfl
  · intro tok now
    rfl

/-! ## Decimal representation facts

`generate_unique_slug` builds candidate slugs by interpolating a decimal
counter; the uniqueness argument needs that distinct counters yield
distinct strings, i.e. that `Nat.repr` is injective. -/

/-- Value of a decimal digit character (0 on anything else). -/
def decDigitVal (c : Char) : Nat :=
  if c = '0' then 0 else if c = '1' then 1 else if c = '2' then 2
  else if c = '3' then 3 else if c = '4' then 4 else if c = '5' then 5
  else if c = '6' then 6 else if c = '7' then 7 else if c = '8' then 8
  else if c = '9' then 9 else 0

/-- Most-significant-first decimal digit characters of a natural number. -/
def decChars (n : Nat) : List Char :=
  if h : n < 10 then [Nat.digitChar n]
  else decChars (n / 10) ++ [Nat.digitChar (n % 10)]
decreasing_by
  exact Nat.div_lt_self (by omega) (by omega)

lemma toDigitsCore_eq_decChars :
    ∀ (fuel n : Nat) (acc : List Char), n < fuel →
      Nat.toDigitsCore 10 fuel n acc = decChars n ++ acc := by
  intro fuel
  induction fuel with
  | zero => intro n acc h; omega
  | succ fuel ih =>
    intro n acc h
    simp only [Nat.toDigitsCore]
    by_cases hdiv : n / 10 = 0
    · have hlt : n < 10 := by omega
      rw [if_pos hdiv, decChars, dif_pos hlt, Nat.mod_eq_of_lt hlt]
      rfl
    · have hge : 10 ≤ n := by omega
      have hlt : n / 10 < fuel := by omega
      rw [if_neg hdiv, ih (n / 10) _ hlt]
      conv_rhs => rw [decChars]
      rw [dif_neg (by omega : ¬ n < 10)]
      simp

lemma repr_eq_decChars (n : Nat) : Nat.repr n = (decChars n).asString := by
  show (Nat.toDigits 10 n).asString = (decChars n).asString
  unfold Nat.toDigits
  rw [toDigitsCore_eq_decChars (n + 1) n [] (Nat.lt_succ_self n)]
  simp

/-- Reads a most-significant-first decimal digit string back to a number. -/
def charsVal (l : List Char) : Nat :=
  l.foldl (fun a c => a * 10 + decDigitVal c) 0

lemma digitVal_digitChar : ∀ n, n < 10 → decDigitVal (Nat.digitChar n) = n := by
  decide

lemma charsVal_decChars : ∀ n, charsVal (decChars n) = n := by
  intro n
  induction n using Nat.strong_induction_on with
  | _ n ih =>
    rw [decChars]
    split
    · next h =>
      simp [charsVal, digitVal_digitChar n h]
    · next h =>
      have ih1 : charsVal (decChars (n / 10)) = n / 10 := ih (n / 10) (by omega)
      have hm : decDigitVal (Nat.digitChar (n % 10)) = n % 10 :=
        digitVal_digitChar _ (Nat.mod_lt _ (by omega))
      calc charsVal (decChars (n / 10) ++ [Nat.digitChar (n % 10)])
          = charsVal (decChars (n / 10)) * 10 + decDigitVal (Nat.digitChar (n % 10)) := by
            simp [charsVal, List.foldl_append]
        _ = n := by rw [ih1, hm]; omega

lemma decChars_injective {m n : Nat} (h : decChars m = decChars n) : m = n := by
  have hm := charsVal_decChars m
  rw [h, charsVal_decChars n] at hm
  omega

lemma natRepr_injective {m n : Nat} (h : Nat.repr m = Nat.repr n) : m = n := by
  apply decChars_injective
  have h1 := repr_eq_decChars m
  have h2 := repr_eq_decChars n
  rw [h1, h2] at h
  simpa [List.asString] using congrArg String.data h

lemma decChars_ne_nil (n : Nat) : decChars n ≠ [] := by
  rw [decChars]
  split
  · simp
  · simp

lemma natRepr_length_pos (n : Nat) : 0 < (Nat.repr n).length := by
  rw [repr_eq_decChars]
  show 0 < (decChars n).length
  exact List.length_pos.mpr (decChars_ne_nil n)

/-! ## Slug generation (src/app/routers/admin_news.py lines 72-87)

The news table is a list of rows; only the columns the function touches
(`id` and `slug`) are modelled. `NewsModel.generate_slug` (app/models/news.py
is not under src/) enters as the already-computed `base` argument, so every
result below holds for every base slug. -/

structure NewsRow where
  id : Nat
  slug : String
deriving DecidableEq

/-- The query of src/app/routers/admin_news.py lines 79-83: a row matches
when its slug equals the candidate and, when `news_id` is truthy (Python
truthiness: not `None` and not `0`), its id differs from `news_id`; the
candidate is occupied when some row matches. -/
def slugQueryHit (rows : List NewsRow) (newsId : Option Nat) (s : String) : Bool :=
  rows.any fun r =>
    r.slug == s &&
    (match newsId with
     | some n => if n == 0 then true else r.id != n
     | none => true)

/-- The candidate slug tried at loop iteration `k`: the base slug itself
first, then the base slug suffixed with a dash and the decimal counter. -/
def candidate (base : String) : Nat → String
  | 0 => base
  | k + 1 => base ++ "-" ++ Nat.repr (k + 1)

/-- The `while True` loop of src/app/routers/admin_news.py lines 78-87,
with explicit fuel; the fallback at fuel zero is never reached when the
fuel exceeds the number of rows. -/
def genSlugAux (rows : List NewsRow) (newsId : Option Nat) (base : String) :
    Nat → Nat → String
  | counter, 0 => candidate base counter
  | counter, fuel + 1 =>
    if slugQueryHit rows newsId (candidate base counter) then
      genSlugAux rows newsId base (counter + 1) fuel
    else candidate base counter

/-- src/app/routers/admin_news.py lines 72-87 `generate_unique_slug`. -/
def generate_unique_slug (rows : List NewsRow) (base : String)
    (newsId : Option Nat) : String :=
  genSlugAux rows newsId base 0 (rows.length + 1)

/-- The relation the claim speaks about: some row other than the row with
id `newsId` carries the slug `s`. -/
def takenByOther (rows : List NewsRow) (newsId : Option Nat) (s : String) : Bool :=
  rows.any fun r =>
    r.slug == s &&
    (match newsId with
     | some n => r.id != n
     | none => true)

lemma candidate_injective (base : String) : Function.Injective (candidate base) := by
  intro i j h
  cases i with
  | zero =>
    cases j with
    | zero => rfl
    | succ j =>
      exfalso
      have hlen := congrArg String.length h
      simp only [candidate, String.length_append] at hlen
      have := natRepr_length_pos (j + 1)
      omega
  | succ i =>
    cases j with
    | zero =>
      exfalso
      have hlen := congrArg String.length h
      simp only [candidate, String.length_append] at hlen
      have := natRepr_length_pos (i + 1)
      omega
    | succ j =>
      have hd := congrArg String.data h
      simp only [candidate, String.data_append, List.append_assoc] at hd
      have hd2 := List.append_cancel_left hd
      have hd3 := List.append_cancel_left hd2
      have : Nat.repr (i + 1) = Nat.repr (j + 1) := congrArg String.mk hd3
      have := natRepr_injective this
      omega

lemma bool_eq_true_of_ne_false {b : Bool} (h : ¬ b = false) : b = true := by
  cases b
  · exact absurd rfl h
  · rfl

lemma exists_unhit (rows : List NewsRow) (newsId : Option Nat) (base : String) :
    ∃ m, m ≤ rows.length ∧ slugQueryHit rows newsId (candidate base m) = false := by
  by_contra hc
  push_neg at hc
  have hall : ∀ m, m ≤ rows.length →
      slugQueryHit rows newsId (candidate base m) = true :=
    fun m hm => bool_eq_true_of_ne_false (hc m hm)
  have hmem : ∀ m ∈ List.range (rows.length + 1),
      candidate base m ∈ rows.map (fun r => r.slug) := by
    intro m hm
    have hm' : m ≤ rows.length := by
      have := List.mem_range.mp hm
      omega
    rcases List.any_eq_true.mp (hall m hm') with ⟨r, hr, hcond⟩
    have hslug : r.slug = candidate base m := by
      have h1 := ((Bool.and_eq_true _ _).mp hcond).1
      simpa using h1
    exact List.mem_map.mpr ⟨r, hr, hslug⟩
  have hnd : ((List.range (rows.length + 1)).map (candidate base)).Nodup :=
    (List.nodup_range _).map (candidate_injective base)
  have hsub : (List.range (rows.length + 1)).map (candidate base) ⊆
      rows.map (fun r => r.slug) := by
    intro s hs
    rcases List.mem_map.mp hs with ⟨m, hm, rfl⟩
    exact hmem m hm
  have hlen := (hnd.subperm hsub).length_le
  simp only [List.length_map, List.length_range] at hlen
  omega

lemma genSlugAux_eq (rows : List NewsRow) (newsId : Option Nat) (base : String) :
    ∀ (fuel counter m : Nat), m < fuel →
      slugQueryHit rows newsId (candidate base (counter + m)) = false →
      (∀ j, j < m → slugQueryHit rows newsId (candidate base (counter + j)) = true) →
      genSlugAux rows newsId base counter fuel = candidate base (counter + m) := by
  intro fuel
  induction fuel with
  | zero =>
    intro counter m hm
    omega
  | succ fuel ih =>
    intro counter m hm hfree hhit
    simp only [genSlugAux]
    by_cases hc : slugQueryHit rows newsId (candidate base counter) = true
    · rw [if_pos hc]
      cases m with
      | zero =>
        rw [Nat.add_zero] at hfree
        rw [hfree] at hc
        cases hc
      | succ m =>
        have hrec := ih (counter + 1) m (by omega)
          (by rw [show counter + 1 + m = counter + (m + 1) by omega]; exact hfree)
          (fun j hj => by
            rw [show counter + 1 + j = counter + (j + 1) by omega]
            exact hhit (j + 1) (by omega))
        rw [hrec]
        congr 1
        omega
    · have hc' : slugQueryHit rows newsId (candidate base counter) = false := by
        cases hb : slugQueryHit rows newsId (candidate base counter)
        · rfl
        · exact absurd hb hc
      rw [if_neg (by rw [hc']; exact Bool.false_ne_true)]
      cases m with
      | zero => rw [Nat.add_zero]
      | succ m =>
        exfalso
        have := hhit 0 (by omega)
        rw [Nat.add_zero] at this
        rw [this] at hc'
        cases hc'

lemma slugQueryHit_eq_takenByOther (rows : List NewsRow) (newsId : Option Nat)
    (h0 : newsId ≠ some 0) (s : String) :
    slugQueryHit rows newsId s = takenByOther rows newsId s := by
  unfold slugQueryHit takenByOther
  congr 1
  funext r
  cases newsId with
  | none => rfl
  | some n =>
    have hn : n ≠ 0 := fun hn => h0 (by rw [hn])
    simp [hn]

lemma candidate_pos (base : String) (k : Nat) (hk : 0 < k) :
    candidate base k = base ++ "-" ++ Nat.repr k := by
  cases k with
  | zero => omega
  | succ k => rfl

/-- C10 counterexample: at news table `[{id = 0, slug = "x"}]`, base slug
`"x"` and `news_id = 0`, no row other than the row with id `news_id`
carries the base slug, yet `generate_unique_slug` does not return it: the
Python truthiness test `if news_id:` skips the self-exclusion filter for
id 0, so the function sees the slug as occupied and returns `"x-1"`. -/
theorem generate_unique_slug_zero_id_counterexample :
    takenByOther [⟨0, "x"⟩] (some 0) "x" = false ∧
      generate_unique_slug [⟨0, "x"⟩] "x" (some 0) = "x-1" ∧
      ("x-1" : String) ≠ "x" := by
  refine ⟨by decide, by decide, by decide⟩

/-- C10 amended: whenever `news_id` is not the id 0 (it is absent, as at
news creation, or a truthy id, as at updates of rows with positive ids),
`generate_unique_slug` returns a slug carried by no row other than the row
with id `news_id`: the base slug itself when that is free, and otherwise
the base slug suffixed with `-k` for the smallest positive counter `k`
making it free — so creation and title-changing updates preserve slug
uniqueness. -/
theorem generate_unique_slug_correct (rows : List NewsRow) (base : String)
    (newsId : Option Nat) (h0 : newsId ≠ some 0) :
    takenByOther rows newsId (generate_unique_slug rows base newsId) = false ∧
      (takenByOther rows newsId base = false →
        generate_unique_slug rows base newsId = base) ∧
      (takenByOther rows newsId base = true →
        ∃ k, 1 ≤ k ∧
          generate_unique_slug rows base newsId = base ++ "-" ++ Nat.repr k ∧
          takenByOther rows newsId (base ++ "-" ++ Nat.repr k) = false ∧
          ∀ j, 1 ≤ j → j < k →
            takenByOther rows newsId (base ++ "-" ++ Nat.repr j) = true) := by
  have heq : ∀ s, slugQueryHit rows newsId s = takenByOther rows newsId s :=
    slugQueryHit_eq_takenByOther rows newsId h0
  have hex : ∃ m, slugQueryHit rows newsId (candidate base m) = false := by
    rcases exists_unhit rows newsId base with ⟨m, _, hm⟩
    exact ⟨m, hm⟩
  have hfind_le : Nat.find hex ≤ rows.length := by
    rcases exists_unhit rows newsId base with ⟨m, hmle, hm⟩
    exact le_trans (Nat.find_min' hex hm) hmle
  have hfree : slugQueryHit rows newsId (candidate base (Nat.find hex)) = false :=
    Nat.find_spec hex
  have hhit : ∀ j, j < Nat.find hex →
      slugQueryHit rows newsId (candidate base j) = true :=
    fun j hj => bool_eq_true_of_ne_false (Nat.find_min hex hj)
  have hrun : generate_unique_slug rows base newsId =
      candidate base (Nat.find hex) := by
    have := genSlugAux_eq rows newsId base (rows.length + 1) 0 (Nat.find hex)
      (by omega)
      (by simpa using hfree)
      (fun j hj => by simpa using hhit j hj)
    simpa [generate_unique_slug] using this
  refine ⟨?_, ?_, ?_⟩
  · rw [hrun, ← heq]
    exact hfree
  · intro hb
    have h00 : slugQueryHit rows newsId (candidate base 0) = false := by
      rw [heq]
      exact hb
    have : Nat.find hex = 0 := Nat.le_zero.mp (Nat.find_min' hex h00)
    rw [hrun, this]
    rfl
  · intro hb
    have hne : Nat.find hex ≠ 0 := by
      intro hzero
      rw [hzero, show candidate base 0 = base from rfl, heq, hb] at hfree
      cases hfree
    refine ⟨Nat.find hex, by omega, ?_, ?_, ?_⟩
    · rw [hrun, candidate_pos base _ (by omega)]
    · rw [← candidate_pos base _ (by omega), ← heq]
      exact hfree
    · intro j hj1 hjk
      rw [← candidate_pos base j (by omega), ← heq]
      exact hhit j hjk

/-- Witness for C10 amended: with rows `[{id = 1, slug = "a"}, {id = 2,
slug = "a-1"}]`, base `"a"` and no `news_id`, the conclusions hold (the
function returns `"a-2"`). -/
theorem generate_unique_slug_correct_witness :
    takenByOther [⟨1, "a"⟩, ⟨2, "a-1"⟩] none
        (generate_unique_slug [⟨1, "a"⟩, ⟨2, "a-1"⟩] "a" none) = false ∧
      (takenByOther [⟨1, "a"⟩, ⟨2, "a-1"⟩] none "a" = false →
        generate_unique_slug [⟨1, "a"⟩, ⟨2, "a-1"⟩] "a" none = "a") ∧
      (takenByOther [⟨1, "a"⟩, ⟨2, "a-1"⟩] none "a" = true →
        ∃ k, 1 ≤ k ∧
          generate_unique_slug [⟨1, "a"⟩, ⟨2, "a-1"⟩] "a" none =
            "a" ++ "-" ++ Nat.repr k ∧
          takenByOther [⟨1, "a"⟩, ⟨2, "a-1"⟩] none ("a" ++ "-" ++ Nat.repr k) = false ∧
          ∀ j, 1 ≤ j → j < k →
            takenByOther [⟨1, "a"⟩, ⟨2, "a-1"⟩] none ("a" ++ "-" ++ Nat.repr j) = true) :=
  generate_unique_slug_correct [⟨1, "a"⟩, ⟨2, "a-1"⟩] "a" none (by decide)

end Jkusa
